import Mathlib

/-!
Shallow embedding of the authentication-handshake dispatcher of
`src/lib/cmd/handshake/authentication.js` (class `Authentication`): the
packet cursor it consumes, the fingerprint validator
`validateFingerPrint`, the mechanism-switch handling
`dispatchAuthSwitchRequest` and the packet classifier `handshakeResult`.

Bytes are `Nat` (one entry per byte, values 0..255); strings are lists of
character codes.  External collaborators that are not part of this
repository (Node `crypto`, `Buffer` codecs) and repository modules absent
from `src/` (the packet reader, the errors table, the utils module, the
capabilities table) are modelled from the spec where noted.
-/

/-- Byte sequences and character-code strings. -/
abbrev Bytes := List Nat

/-- Character codes of a Lean string literal (used to embed the source's
string literals and mechanism names). -/
def strBytes (s : String) : Bytes := s.toList.map Char.toNat

/-- Driver error codes referenced by `authentication.js`.  Modelled from the
spec: the numeric table lives in the missing `lib/misc/errors` module; the
spec only requires the codes to be distinct, so they are constructors of an
inductive type.  `server` wraps an error number read from an ERR packet. -/
inductive ErrCode where
  | ER_SELF_SIGNED
  | ER_SELF_SIGNED_NO_PWD
  | ER_NOT_SUPPORTED_AUTH_PLUGIN
  | ER_AUTHENTICATION_PLUGIN_NOT_SUPPORTED
  | ER_AUTHENTICATION_BAD_PACKET
  | server (code : Nat)
  deriving DecidableEq, Repr

/-- An error record as built by `throwNewError` / `createFatalError` /
`packet.readError`: message, fatal flag, SQLSTATE and driver error code. -/
structure ErrorRecord where
  msg : Bytes
  fatal : Bool
  sqlState : Bytes
  errno : ErrCode
  deriving DecidableEq, Repr

/-- The packet cursor (`packet` argument): one inbound protocol packet with
a read position.  Modelled from the spec: the reader itself is the missing
`lib/io/packet` module; the spec lists its operations (peek-byte, skip-N,
read-fixed-int, read-length-encoded-int, read-null-terminated-string,
read-remaining-bytes, remaining-byte-count). -/
structure Packet where
  bytes : Bytes
  pos : Nat
  deriving DecidableEq, Repr

/-- `packet.peek()`: the byte at the current position (`none` when past the
end, the JS `undefined`). -/
def Packet.peek (p : Packet) : Option Nat := p.bytes.get? p.pos

/-- `packet.skip(n)`: advance the position by `n`. -/
def Packet.skip (p : Packet) (n : Nat) : Packet := { p with pos := p.pos + n }

/-- `packet.remaining()`: number of unread bytes. -/
def Packet.remaining (p : Packet) : Nat := p.bytes.length - p.pos

/-- Modelled from the spec: `skipLengthCodedNumber` of the missing packet
reader skips one length-encoded integer (first byte below 0xfb: that one
byte; 0xfc/0xfd/0xfe: 2/3/8 further bytes; 0xfb is the 1-byte null
marker). -/
def Packet.skipLengthCodedNumber (p : Packet) : Packet :=
  match p.bytes.get? p.pos with
  | some 0xfc => p.skip 3
  | some 0xfd => p.skip 4
  | some 0xfe => p.skip 9
  | _ => p.skip 1

/-- `packet.readUInt16()`: little-endian 2-byte unsigned integer; `none`
when fewer than 2 bytes remain (not modelled further). -/
def Packet.readUInt16 (p : Packet) : Option (Nat × Packet) :=
  match p.bytes.get? p.pos, p.bytes.get? (p.pos + 1) with
  | some b0, some b1 => some (b0 + 256 * b1, p.skip 2)
  | _, _ => none

/-- Read exactly `n` bytes; `none` when fewer remain. -/
def Packet.readN (p : Packet) (n : Nat) : Option (Bytes × Packet) :=
  if p.pos + n ≤ p.bytes.length then some ((p.bytes.drop p.pos).take n, p.skip n)
  else none

/-- Little-endian value of a byte list. -/
def bytesLE (l : Bytes) : Nat := l.foldr (fun b acc => b + 256 * acc) 0

/-- Modelled from the spec: `readBufferLengthEncoded` of the missing packet
reader reads a length-encoded length then that many bytes; `some (none, _)`
is the null marker 0xfb, outer `none` is an unmodelled underflow. -/
def Packet.readBufferLengthEncoded (p : Packet) : Option (Option Bytes × Packet) :=
  match p.bytes.get? p.pos with
  | none => none
  | some b =>
    if b < 0xfb then
      ((p.skip 1).readN b).map (fun r => (some r.1, r.2))
    else if b = 0xfb then some (none, p.skip 1)
    else if b = 0xfc then
      match (p.skip 1).readN 2 with
      | some (lb, p2) => (p2.readN (bytesLE lb)).map (fun r => (some r.1, r.2))
      | none => none
    else if b = 0xfd then
      match (p.skip 1).readN 3 with
      | some (lb, p2) => (p2.readN (bytesLE lb)).map (fun r => (some r.1, r.2))
      | none => none
    else if b = 0xfe then
      match (p.skip 1).readN 8 with
      | some (lb, p2) => (p2.readN (bytesLE lb)).map (fun r => (some r.1, r.2))
      | none => none
    else none

/-- Bytes before the first null byte, with the count consumed including the
null terminator; `none` when no null byte exists. -/
def takeUntilZero : Bytes → Option (Bytes × Nat)
  | [] => none
  | 0 :: _ => some ([], 1)
  | b :: rest =>
    match takeUntilZero rest with
    | some (s, n) => some (b :: s, n + 1)
    | none => none

/-- Modelled from the spec: `readStringNullEnded` of the missing packet
reader reads a null-terminated string (returned as its raw byte codes) and
leaves the position after the terminator. -/
def Packet.readStringNullEnded (p : Packet) : Option (Bytes × Packet) :=
  match takeUntilZero (p.bytes.drop p.pos) with
  | some (s, n) => some (s, p.skip n)
  | none => none

/-- `packet.readBufferRemaining()`: all unread bytes; position moves to the
end. -/
def Packet.readBufferRemaining (p : Packet) : Bytes × Packet :=
  (p.bytes.drop p.pos, { p with pos := p.bytes.length })

/-- Modelled from the spec: `readError` of the missing packet reader parses
a standard error payload — 0xff header, 2-byte error number, optional
sqlstate marker 35 followed by 5 SQLSTATE bytes, then the message.  The
record is produced with `fatal := false`; the caller sets the flag. -/
def Packet.readError (p : Packet) : ErrorRecord :=
  match (p.skip 1).readUInt16 with
  | some (code, p2) =>
    if p2.peek = some 35 then
      match (p2.skip 1).readN 5 with
      | some (st, p3) =>
        { msg := (p3.readBufferRemaining).1, fatal := false, sqlState := st,
          errno := .server code }
      | none =>
        { msg := [], fatal := false, sqlState := strBytes "HY000", errno := .server code }
    else
      { msg := (p2.readBufferRemaining).1, fatal := false, sqlState := strBytes "HY000",
        errno := .server code }
  | none => { msg := [], fatal := false, sqlState := strBytes "HY000", errno := .server 0 }

/-- The connection info threaded through the handshake (`info` argument):
the fields `authentication.js` touches. -/
structure Info where
  status : Option Nat
  requireValidCert : Bool
  selfSignedCertificate : Bool
  seed : Bytes
  tlsFingerprint : Bytes
  clientCapabilities : Nat
  deriving DecidableEq, Repr

/-- The options consumed (`opts` / `cmdParam.opts`): `none` password models
an absent (undefined/null) password, `some []` the empty string;
`restrictedAuth` is the optional allow-list of mechanism names. -/
structure Opts where
  password : Option Bytes
  restrictedAuth : Option (List Bytes)
  deriving DecidableEq, Repr

/-- Modelled from the spec: the plugin-auth capability bit of the missing
`lib/const/capabilities` module (`PLUGIN_AUTH`, bit 19 of the MySQL
capability flags). -/
def PLUGIN_AUTH : Nat := 524288

/-- The own keys of the `authenticationPlugins` registry object literal. -/
def authenticationPlugins : List Bytes :=
  [strBytes "mysql_native_password", strBytes "mysql_clear_password",
   strBytes "client_ed25519", strBytes "dialog", strBytes "sha256_password",
   strBytes "caching_sha2_password"]

/-- The property names the `authenticationPlugins` object literal inherits
from `Object.prototype` in Node.  For these names the JS lookup
`authenticationPlugins[pluginName]` yields a truthy function or object
rather than `undefined`, so the `if (!pluginAuth)` guard of
`pluginHandler` does not fire. -/
def objectPrototypeKeys : List Bytes :=
  [strBytes "constructor", strBytes "hasOwnProperty", strBytes "isPrototypeOf",
   strBytes "propertyIsEnumerable", strBytes "toLocaleString", strBytes "toString",
   strBytes "valueOf", strBytes "__defineGetter__", strBytes "__defineSetter__",
   strBytes "__lookupGetter__", strBytes "__lookupSetter__", strBytes "__proto__"]

/-- One lowercase hex digit character code (`0`-`9`, `a`-`f`). -/
def hexDigitChar (n : Nat) : Nat := if n < 10 then 48 + n else 87 + n

/-- Modelled from the spec: `toHexString` of the missing `lib/misc/utils`
module — the lowercase hex encoding of a byte buffer. -/
def toHexString (l : Bytes) : Bytes :=
  l.foldr (fun b acc => hexDigitChar (b / 16 % 16) :: hexDigitChar (b % 16) :: acc) []

/-- Value of one hex digit character, `none` for a non-hex character. -/
def hexVal (c : Nat) : Option Nat :=
  if 48 ≤ c ∧ c ≤ 57 then some (c - 48)
  else if 97 ≤ c ∧ c ≤ 102 then some (c - 87)
  else if 65 ≤ c ∧ c ≤ 70 then some (c - 55)
  else none

/-- Node `Buffer.from(str, 'hex')`: decode pairs of hex digit characters
into bytes, stopping at the first invalid pair or odd trailing character. -/
def bufferFromHex : Bytes → Bytes
  | c1 :: c2 :: rest =>
    match hexVal c1, hexVal c2 with
    | some h, some l => (16 * h + l) :: bufferFromHex rest
    | _, _ => []
  | _ => []

/-- Node `buffer.toString('ascii')`: each byte with its high bit
stripped. -/
def asciiDecode (l : Bytes) : Bytes := l.map (fun b => b % 128)

/-- JS `String.prototype.toLowerCase` on one ASCII character code. -/
def toLowerChar (c : Nat) : Nat := if 65 ≤ c ∧ c ≤ 90 then c + 32 else c

/-- JS `String.prototype.toLowerCase` on a character-code string. -/
def toLowerStr (l : Bytes) : Bytes := l.map toLowerChar

/-- Result of `validateFingerPrint`: a boolean, or the `assert.equal`
failure (an uncaught exception in the source). -/
inductive FpResult where
  | assertFailed
  | ok (b : Bool)
  deriving DecidableEq, Repr

/-- `Authentication.validateFingerPrint(validationHash, info)`.  `sha256h`
stands for Node `crypto`'s SHA-256 (the `update` chain concatenates its
inputs); `pluginHash` is the value of `this.plugin.hash(this.cmdParam.opts)`
— both are external collaborators taken as parameters. -/
def validateFingerPrint (sha256h : Bytes → Bytes) (pluginHash : Bytes)
    (validationHash : Bytes) (info : Info) : FpResult :=
  if validationHash.length = 0 then .ok false
  else if validationHash.get? 0 = some 0x01 then
    let digest := sha256h (pluginHash ++ info.seed ++ bufferFromHex info.tlsFingerprint)
    let hashHex := toHexString digest
    let serverValidationHex := toLowerStr (asciiDecode (validationHash.drop 1))
    .ok (hashHex == serverValidationHex)
  else .assertFailed

/-- `.toString()` of a JS array of names: elements joined with commas. -/
def joinComma : List Bytes → Bytes
  | [] => []
  | [x] => x
  | x :: xs => x ++ strBytes "," ++ joinComma xs

/-- The `ER_NOT_SUPPORTED_AUTH_PLUGIN` message of
`dispatchAuthSwitchRequest`. -/
def notPermittedMsg (name : Bytes) (allowed : List Bytes) : Bytes :=
  strBytes "Unsupported authentication plugin " ++ name ++
    strBytes ". Authorized plugin: " ++ joinComma allowed

/-- The `ER_AUTHENTICATION_PLUGIN_NOT_SUPPORTED` message of
`pluginHandler`. -/
def unsupportedPluginMsg (name : Bytes) : Bytes :=
  strBytes "Client does not support authentication protocol \x27" ++ name ++
    strBytes "\x27 requested by server."

/-- The `ER_SELF_SIGNED_NO_PWD` message of `handshakeResult`. -/
def selfSignedNoPwdMsg : Bytes :=
  strBytes "Self signed certificates. Either set \x60ssl: \x7b rejectUnauthorized: false \x7d\x60 (trust mode) or provide server certificate to client"

/-- The `ER_AUTHENTICATION_BAD_PACKET` message (the marker interpolation
renders the JS `undefined` when the packet is empty). -/
def badPacketMsg (marker : Option Nat) : Bytes :=
  strBytes "Unexpected type of packet during handshake phase : " ++
    (match marker with
     | some v => strBytes (toString v)
     | none => strBytes "undefined")

/-- How one `handshakeResult` invocation ends. -/
inductive Outcome where
  | success
  | thrown (e : ErrorRecord)
  | pluginErr (e : ErrorRecord)
  | pluginStarted (name : Bytes) (challenge : Bytes)
  | rejected (e : ErrorRecord)
  | rejectedTypeError
  | assertionFailure
  | notModelled
  deriving DecidableEq, Repr

/-- Result of one `handshakeResult` invocation: the updated `info`, whether
the active plugin's `onPacketReceive` callback was cleared, whether the
previous plugin received its `end` event, and the outcome —
`success` is `successEnd()`, `thrown` is `throwNewError`, `pluginErr` is
`this.plugin.throwError`, `pluginStarted name challenge` is a new plugin
built from the registry whose `start` ran, `rejected` is `this.reject` on a
`pluginHandler` throw of an `ErrorRecord`, `rejectedTypeError` is
`this.reject` on a JS TypeError (no fatal flag, SQLSTATE or driver code)
raised inside the try block, `assertionFailure` the `assert.equal`
exception and `notModelled` a cursor underflow the embedding does not
model. -/
structure HsResult where
  info : Info
  pluginDetached : Bool
  pluginEnded : Bool
  outcome : Outcome
  deriving DecidableEq, Repr

/-- The parse section of `dispatchAuthSwitchRequest`: the mechanism name
and challenge data extracted from an AuthSwitchRequest packet. -/
def parseAuthSwitch (packet : Packet) (info : Info) : Option (Bytes × Bytes) :=
  if info.clientCapabilities &&& PLUGIN_AUTH ≠ 0 then
    let p1 := packet.skip 1
    if p1.remaining ≠ 0 then
      match p1.readStringNullEnded with
      | some (name, p2) => some (name, (p2.readBufferRemaining).1)
      | none => none
    else some (strBytes "mysql_old_password", info.seed.take 8)
  else
    match packet.readStringNullEnded with
    | some (name, p2) => some (name, (p2.readBufferRemaining).1)
    | none => none

/-- `Authentication.dispatchAuthSwitchRequest(packet, out, opts, info)`
combined with `Authentication.pluginHandler`: parse, allow-list check,
previous-plugin teardown, registry lookup, construction and `start`.
The lookup `authenticationPlugins[pluginName]` distinguishes three cases:
an own key (a plugin constructor: construct and `start`), an
`Object.prototype`-inherited property (truthy, so the `if (!pluginAuth)`
guard is skipped and `new pluginAuth(...)` throws a TypeError — for
`constructor` the `new Object(...)` call succeeds and the TypeError comes
from the subsequent `plugin.start`; either way the try/catch passes it to
`this.reject`), and `undefined` (the typed fatal
`ER_AUTHENTICATION_PLUGIN_NOT_SUPPORTED` error, also via `this.reject`). -/
def dispatchAuthSwitchRequest (packet : Packet) (opts : Opts) (info : Info) : HsResult :=
  match parseAuthSwitch packet info with
  | none =>
    { info := info, pluginDetached := false, pluginEnded := false, outcome := .notModelled }
  | some (pluginName, pluginData) =>
    if (match opts.restrictedAuth with
        | some allowed => !allowed.contains pluginName
        | none => false) then
      { info := info, pluginDetached := false, pluginEnded := false,
        outcome := .thrown
          { msg := notPermittedMsg pluginName (opts.restrictedAuth.getD []),
            fatal := true, sqlState := strBytes "42000",
            errno := .ER_NOT_SUPPORTED_AUTH_PLUGIN } }
    else if authenticationPlugins.contains pluginName then
      { info := info, pluginDetached := true, pluginEnded := true,
        outcome := .pluginStarted pluginName pluginData }
    else if objectPrototypeKeys.contains pluginName then
      { info := info, pluginDetached := true, pluginEnded := true,
        outcome := .rejectedTypeError }
    else
      { info := info, pluginDetached := true, pluginEnded := true,
        outcome := .rejected
          { msg := unsupportedPluginMsg pluginName, fatal := true,
            sqlState := strBytes "08004",
            errno := .ER_AUTHENTICATION_PLUGIN_NOT_SUPPORTED } }

/-- The `throwNewError('self-signed certificate', ...)` result of the OK
branch. -/
def selfSignedErrResult (i : Info) : HsResult :=
  { info := i, pluginDetached := true, pluginEnded := false,
    outcome := .thrown
      { msg := strBytes "self-signed certificate", fatal := true,
        sqlState := strBytes "08000", errno := .ER_SELF_SIGNED } }

/-- `Authentication.handshakeResult(packet, out, opts, info)`: classify the
packet by its first byte.  `permitHash` is `this.plugin.permitHash()`,
`pluginHash` the value of `this.plugin.hash(...)` and `sha256h` Node
SHA-256, all external collaborators taken as parameters. -/
def handshakeResult (permitHash : Bool) (pluginHash : Bytes) (sha256h : Bytes → Bytes)
    (packet : Packet) (opts : Opts) (info : Info) : HsResult :=
  let marker := packet.peek
  if marker = some 0xfe then dispatchAuthSwitchRequest packet opts info
  else if marker = some 0x00 then
    let p1 := ((packet.skip 1).skipLengthCodedNumber).skipLengthCodedNumber
    match p1.readUInt16 with
    | none =>
      { info := info, pluginDetached := true, pluginEnded := false, outcome := .notModelled }
    | some (st, p2) =>
      let info2 := { info with status := some st }
      if info2.requireValidCert && info2.selfSignedCertificate then
        let p3 := p2.skip 2
        if p3.remaining ≠ 0 then
          match p3.readBufferLengthEncoded with
          | some (some validationHash, _) =>
            if validationHash.length > 0 then
              if permitHash = false ∨ opts.password = none ∨ opts.password = some [] then
                { info := info2, pluginDetached := true, pluginEnded := false,
                  outcome := .thrown
                    { msg := selfSignedNoPwdMsg, fatal := true,
                      sqlState := strBytes "08000", errno := .ER_SELF_SIGNED_NO_PWD } }
              else
                match validateFingerPrint sha256h pluginHash validationHash info2 with
                | .assertFailed =>
                  { info := info2, pluginDetached := true, pluginEnded := false,
                    outcome := .assertionFailure }
                | .ok true =>
                  { info := info2, pluginDetached := true, pluginEnded := false,
                    outcome := .success }
                | .ok false => selfSignedErrResult info2
            else selfSignedErrResult info2
          | some (none, _) =>
            { info := info2, pluginDetached := true, pluginEnded := false,
              outcome := .notModelled }
          | none =>
            { info := info2, pluginDetached := true, pluginEnded := false,
              outcome := .notModelled }
        else selfSignedErrResult info2
      else
        { info := info2, pluginDetached := true, pluginEnded := false, outcome := .success }
  else if marker = some 0xff then
    let e := packet.readError
    { info := info, pluginDetached := true, pluginEnded := false,
      outcome := .pluginErr { e with fatal := true } }
  else
    { info := info, pluginDetached := false, pluginEnded := false,
      outcome := .thrown
        { msg := badPacketMsg marker, fatal := true,
          sqlState := strBytes "42000", errno := .ER_AUTHENTICATION_BAD_PACKET } }

/-! ## Helper lemmas -/

theorem toLowerChar_hexDigitChar (n : Nat) : toLowerChar (hexDigitChar n) = hexDigitChar n := by
  unfold toLowerChar hexDigitChar
  split <;> split <;> omega

theorem toLowerStr_toHexString (l : Bytes) : toLowerStr (toHexString l) = toHexString l := by
  induction l with
  | nil => rfl
  | cons b t ih =>
    simp [toHexString, toLowerStr] at ih ⊢
    simpa [toLowerChar_hexDigitChar] using ih

theorem takeUntilZero_head (l s : Bytes) (n b : Nat) (hb : b ≠ 0)
    (hl : l.get? 0 = some b) (h : takeUntilZero l = some (s, n)) : s.get? 0 = some b := by
  match l with
  | [] => simp at hl
  | 0 :: t => simp at hl; omega
  | (k + 1) :: t =>
    simp at hl
    simp [takeUntilZero] at h
    match ht : takeUntilZero t with
    | some (s2, n2) => rw [ht] at h; simp at h; simp [← h.1, hl]
    | none => rw [ht] at h; simp at h

/-! ## Claim theorems -/

/-- C1: for every inbound packet whose first byte is 0xFF, `handshakeResult`
clears the active plugin's packet callback (`pluginDetached`), parses the
standard error payload with `readError`, sets the resulting error's fatal
flag to true and delivers it through the active plugin's `throwError`
failure path (`Outcome.pluginErr`), regardless of prior handshake state. -/
theorem c1_err_packet_fatal (permitHash : Bool) (pluginHash : Bytes) (sha256h : Bytes → Bytes)
    (packet : Packet) (opts : Opts) (info : Info)
    (hpeek : packet.peek = some 0xff) :
    handshakeResult permitHash pluginHash sha256h packet opts info =
      { info := info, pluginDetached := true, pluginEnded := false,
        outcome := .pluginErr { packet.readError with fatal := true } } ∧
    ({ packet.readError with fatal := true } : ErrorRecord).fatal = true := by
  refine ⟨?_, rfl⟩
  simp [handshakeResult, hpeek]

/-- Witness for C1 at the ERR packet `[0xff, 0x15, 0x04, '#', "28000", 'A']`. -/
theorem c1_err_packet_fatal_witness :
    handshakeResult true [] (fun _ => []) ⟨[0xff, 0x15, 0x04, 35, 50, 56, 48, 48, 48, 65], 0⟩
        ⟨some [], none⟩ ⟨none, false, false, [], [], 0⟩ =
      { info := ⟨none, false, false, [], [], 0⟩, pluginDetached := true, pluginEnded := false,
        outcome := .pluginErr
          { msg := [65], fatal := true, sqlState := [50, 56, 48, 48, 48],
            errno := .server 1045 } } := by
  have h := c1_err_packet_fatal true [] (fun _ => [])
    ⟨[0xff, 0x15, 0x04, 35, 50, 56, 48, 48, 48, 65], 0⟩ ⟨some [], none⟩
    ⟨none, false, false, [], [], 0⟩ rfl
  rw [h.1]; decide

/-- C2: for every inbound packet whose first byte is 0x00, when the
self-signed special case does not apply, `handshakeResult` clears the
plugin's packet callback, skips the header and the two length-encoded
integers, stores the next 2-byte field into `info.status`, and concludes
success with no further dispatch. -/
theorem c2_ok_packet_success (permitHash : Bool) (pluginHash : Bytes) (sha256h : Bytes → Bytes)
    (packet : Packet) (opts : Opts) (info : Info) (st : Nat) (p2 : Packet)
    (hpeek : packet.peek = some 0x00)
    (hread : (((packet.skip 1).skipLengthCodedNumber).skipLengthCodedNumber).readUInt16
      = some (st, p2))
    (hcert : (info.requireValidCert && info.selfSignedCertificate) = false) :
    handshakeResult permitHash pluginHash sha256h packet opts info =
      { info := { info with status := some st }, pluginDetached := true, pluginEnded := false,
        outcome := .success } := by
  simp [handshakeResult, hpeek, hread, hcert]

/-- Witness for C2 at the OK packet `[0x00, <varint 0>, <varint 0>,
status=0x0002]`: success and session status 2. -/
theorem c2_ok_packet_success_witness :
    handshakeResult true [] (fun _ => []) ⟨[0x00, 0x00, 0x00, 0x02, 0x00], 0⟩
        ⟨some [], none⟩ ⟨none, false, false, [], [], 0⟩ =
      { info := ⟨some 2, false, false, [], [], 0⟩, pluginDetached := true, pluginEnded := false,
        outcome := .success } :=
  c2_ok_packet_success true [] (fun _ => []) ⟨[0x00, 0x00, 0x00, 0x02, 0x00], 0⟩
    ⟨some [], none⟩ ⟨none, false, false, [], [], 0⟩ 2 ⟨[0x00, 0x00, 0x00, 0x02, 0x00], 5⟩
    rfl (by decide) rfl

/-- C3: for every non-empty validation hash whose first byte is 0x01,
`validateFingerPrint` returns true iff the hex encoding of
SHA-256(credential hash ++ seed ++ certificate-fingerprint bytes) equals,
case-insensitively, the ASCII remainder of the validation hash after its
tag byte. -/
theorem c3_validateFingerPrint_iff (sha256h : Bytes → Bytes) (pluginHash vh : Bytes)
    (info : Info) (hne : vh ≠ []) (htag : vh.get? 0 = some 0x01) :
    (validateFingerPrint sha256h pluginHash vh info = .ok true ↔
      toLowerStr (toHexString
          (sha256h (pluginHash ++ info.seed ++ bufferFromHex info.tlsFingerprint)))
        = toLowerStr (asciiDecode (vh.drop 1))) := by
  have hlen : ¬ vh.length = 0 := fun h => hne (List.length_eq_zero.mp h)
  unfold validateFingerPrint
  rw [if_neg hlen, if_pos htag]
  simp only [FpResult.ok.injEq, beq_iff_eq, toLowerStr_toHexString]

/-- Witness for C3 at hash `[0x01]` with a SHA-256 stub returning `[]`. -/
theorem c3_validateFingerPrint_iff_witness :
    (validateFingerPrint (fun _ => []) [] [0x01] ⟨none, false, false, [], [], 0⟩ = .ok true ↔
      toLowerStr (toHexString
          ((fun _ => ([] : Bytes)) (([] : Bytes) ++ ([] : Bytes) ++ bufferFromHex [])))
        = toLowerStr (asciiDecode ([0x01].drop 1))) :=
  c3_validateFingerPrint_iff (fun _ => []) [] [0x01] ⟨none, false, false, [], [], 0⟩
    (by decide) rfl

/-- C4: for every non-empty validation hash whose first byte differs from
the scheme tag 0x01, `validateFingerPrint` hits the `assert.equal` failure
rather than returning a boolean, and that branch is reachable exactly when
the tag is not 0x01. -/
theorem c4_validateFingerPrint_assert (sha256h : Bytes → Bytes) (pluginHash vh : Bytes)
    (info : Info) (hne : vh ≠ []) :
    (validateFingerPrint sha256h pluginHash vh info = .assertFailed ↔
      ¬ vh.get? 0 = some 0x01) := by
  have hlen : ¬ vh.length = 0 := fun h => hne (List.length_eq_zero.mp h)
  unfold validateFingerPrint
  rw [if_neg hlen]
  by_cases htag : vh.get? 0 = some 0x01
  · rw [if_pos htag]
    simp only [List.get?_eq_getElem?] at htag
    simp [htag]
  · rw [if_neg htag]
    simp only [List.get?_eq_getElem?] at htag
    simp [htag]

/-- Witness for C4 at hash `[0x02]`: the tag is not 0x01 and the assertion
fails. -/
theorem c4_validateFingerPrint_assert_witness :
    (validateFingerPrint (fun _ => []) [] [0x02] ⟨none, false, false, [], [], 0⟩
        = .assertFailed ↔ ¬ [0x02].get? 0 = some 0x01) :=
  c4_validateFingerPrint_assert (fun _ => []) [] [0x02] ⟨none, false, false, [], [], 0⟩
    (by decide)

/-- C5: for every AuthSwitchRequest whose parsed mechanism name is absent
from a configured allow-list, the dispatcher fails fatally with the
mechanism-not-permitted error naming the mechanism, before any plugin
construction: no plugin is started, the previous plugin is neither
detached nor notified of its end. -/
theorem c5_restricted_auth (permitHash : Bool) (pluginHash : Bytes) (sha256h : Bytes → Bytes)
    (packet : Packet) (opts : Opts) (info : Info) (name data : Bytes) (allowed : List Bytes)
    (hpeek : packet.peek = some 0xfe)
    (hparse : parseAuthSwitch packet info = some (name, data))
    (hallow : opts.restrictedAuth = some allowed)
    (hnotin : allowed.contains name = false) :
    handshakeResult permitHash pluginHash sha256h packet opts info =
      { info := info, pluginDetached := false, pluginEnded := false,
        outcome := .thrown
          { msg := notPermittedMsg name allowed, fatal := true,
            sqlState := strBytes "42000", errno := .ER_NOT_SUPPORTED_AUTH_PLUGIN } } := by
  have hnotin2 : ¬ name ∈ allowed := by simpa using hnotin
  simp [handshakeResult, dispatchAuthSwitchRequest, hpeek, hparse, hallow, hnotin2]

/-- Witness for C5: name `"a"`, allow-list `["b"]`. -/
theorem c5_restricted_auth_witness :
    handshakeResult true [] (fun _ => []) ⟨[0xfe, 97, 0], 0⟩ ⟨none, some [[98]]⟩
        ⟨none, false, false, [], [], 524288⟩ =
      { info := ⟨none, false, false, [], [], 524288⟩, pluginDetached := false,
        pluginEnded := false,
        outcome := .thrown
          { msg := notPermittedMsg [97] [[98]], fatal := true,
            sqlState := strBytes "42000", errno := .ER_NOT_SUPPORTED_AUTH_PLUGIN } } :=
  c5_restricted_auth true [] (fun _ => []) ⟨[0xfe, 97, 0], 0⟩ ⟨none, some [[98]]⟩
    ⟨none, false, false, [], [], 524288⟩ [97] [] [[98]] rfl (by decide) rfl (by decide)

/-- C6 (amended): for every AuthSwitchRequest whose parsed mechanism name
passes the allow-list, is absent from the `authenticationPlugins` registry
and is not an `Object.prototype`-inherited property name, the dispatcher
fails with the fatal unsupported-mechanism error (SQLSTATE 08004, message
naming the mechanism) delivered through the rejection path; no plugin is
constructed and no `start` runs.  (For inherited names such as
`"toString"` the lookup is truthy and the program rejects a TypeError
instead — see the counterexample.) -/
theorem c6_unknown_plugin (permitHash : Bool) (pluginHash : Bytes) (sha256h : Bytes → Bytes)
    (packet : Packet) (opts : Opts) (info : Info) (name data : Bytes)
    (hpeek : packet.peek = some 0xfe)
    (hparse : parseAuthSwitch packet info = some (name, data))
    (hallow : opts.restrictedAuth = none ∨
      ∃ allowed, opts.restrictedAuth = some allowed ∧ allowed.contains name = true)
    (hreg : authenticationPlugins.contains name = false)
    (hproto : objectPrototypeKeys.contains name = false) :
    handshakeResult permitHash pluginHash sha256h packet opts info =
      { info := info, pluginDetached := true, pluginEnded := true,
        outcome := .rejected
          { msg := unsupportedPluginMsg name, fatal := true,
            sqlState := strBytes "08004",
            errno := .ER_AUTHENTICATION_PLUGIN_NOT_SUPPORTED } } := by
  have hreg2 : ¬ name ∈ authenticationPlugins := by simpa using hreg
  have hproto2 : ¬ name ∈ objectPrototypeKeys := by simpa using hproto
  rcases hallow with h | ⟨allowed, h, hin⟩
  · simp [handshakeResult, dispatchAuthSwitchRequest, hpeek, hparse, h, hreg2, hproto2]
  · have hin2 : name ∈ allowed := by simpa using hin
    simp [handshakeResult, dispatchAuthSwitchRequest, hpeek, hparse, h, hin2, hreg2,
      hproto2]

/-- Counterexample to C6 as originally stated: the mechanism name
`"toString"` passes the (absent) allow-list and is not a key of the
`authenticationPlugins` registry, yet the dispatcher does not produce the
typed `ER_AUTHENTICATION_PLUGIN_NOT_SUPPORTED` rejection — the
`Object.prototype`-inherited `toString` function is truthy, the
`if (!pluginAuth)` guard is skipped, and `new pluginAuth(...)` throws a
TypeError that reaches `this.reject` bare. -/
theorem c6_unknown_plugin_counterexample :
    handshakeResult true [] (fun _ => [])
        ⟨[0xfe] ++ strBytes "toString" ++ [0], 0⟩ ⟨none, none⟩
        ⟨none, false, false, [], [], 524288⟩ =
      { info := ⟨none, false, false, [], [], 524288⟩, pluginDetached := true,
        pluginEnded := true, outcome := .rejectedTypeError } ∧
    authenticationPlugins.contains (strBytes "toString") = false ∧
    Outcome.rejectedTypeError ≠
      Outcome.rejected
        { msg := unsupportedPluginMsg (strBytes "toString"), fatal := true,
          sqlState := strBytes "08004",
          errno := .ER_AUTHENTICATION_PLUGIN_NOT_SUPPORTED } := by
  refine ⟨by decide, by decide, by decide⟩

/-- Witness for C6: name `"zz"`, no allow-list, neither a registry key nor
an `Object.prototype` property name. -/
theorem c6_unknown_plugin_witness :
    handshakeResult true [] (fun _ => []) ⟨[0xfe, 122, 122, 0, 9], 0⟩ ⟨none, none⟩
        ⟨none, false, false, [], [], 524288⟩ =
      { info := ⟨none, false, false, [], [], 524288⟩, pluginDetached := true,
        pluginEnded := true,
        outcome := .rejected
          { msg := unsupportedPluginMsg [122, 122], fatal := true,
            sqlState := strBytes "08004",
            errno := .ER_AUTHENTICATION_PLUGIN_NOT_SUPPORTED } } :=
  c6_unknown_plugin true [] (fun _ => []) ⟨[0xfe, 122, 122, 0, 9], 0⟩ ⟨none, none⟩
    ⟨none, false, false, [], [], 524288⟩ [122, 122] [9] rfl (by decide) (Or.inl rfl)
    (by decide) (by decide)

/-- C7: for every AuthSwitchRequest received with plugin-auth negotiated,
if zero bytes remain after skipping the 0xFE header, the dispatcher
synthesizes the mechanism name "mysql_old_password" and a challenge equal
to the first 8 bytes of the session seed. -/
theorem c7_legacy_switch (packet : Packet) (info : Info)
    (hcap : info.clientCapabilities &&& PLUGIN_AUTH ≠ 0)
    (hrem : (packet.skip 1).remaining = 0) :
    parseAuthSwitch packet info =
      some (strBytes "mysql_old_password", info.seed.take 8) := by
  simp [parseAuthSwitch, hcap, hrem]

/-- Witness for C7: a bare `[0xfe]` packet and a 10-byte seed. -/
theorem c7_legacy_switch_witness :
    parseAuthSwitch ⟨[0xfe], 0⟩
        ⟨none, false, false, [1, 2, 3, 4, 5, 6, 7, 8, 9, 10], [], 524288⟩ =
      some (strBytes "mysql_old_password",
        ([1, 2, 3, 4, 5, 6, 7, 8, 9, 10] : Bytes).take 8) :=
  c7_legacy_switch ⟨[0xfe], 0⟩
    ⟨none, false, false, [1, 2, 3, 4, 5, 6, 7, 8, 9, 10], [], 524288⟩ (by decide) rfl

/-- C8: in the self-signed special case of an OK packet with a non-empty
validation hash, if the plugin does not support hash emission or the
password is absent or empty, the handshake fails fatally with
`ER_SELF_SIGNED_NO_PWD` (SQLSTATE 08000), whose code is distinct from
`ER_SELF_SIGNED`. -/
theorem c8_self_signed_no_pwd (permitHash : Bool) (pluginHash : Bytes)
    (sha256h : Bytes → Bytes) (packet : Packet) (opts : Opts) (info : Info)
    (st : Nat) (p2 : Packet) (vh : Bytes) (p3 : Packet)
    (hpeek : packet.peek = some 0x00)
    (hread : (((packet.skip 1).skipLengthCodedNumber).skipLengthCodedNumber).readUInt16
      = some (st, p2))
    (hcert : info.requireValidCert = true)
    (hself : info.selfSignedCertificate = true)
    (hrem : (p2.skip 2).remaining ≠ 0)
    (hbuf : (p2.skip 2).readBufferLengthEncoded = some (some vh, p3))
    (hvne : vh ≠ [])
    (hsec : permitHash = false ∨ opts.password = none ∨ opts.password = some []) :
    handshakeResult permitHash pluginHash sha256h packet opts info =
      { info := { info with status := some st }, pluginDetached := true,
        pluginEnded := false,
        outcome := .thrown
          { msg := selfSignedNoPwdMsg, fatal := true,
            sqlState := strBytes "08000", errno := .ER_SELF_SIGNED_NO_PWD } } ∧
    ErrCode.ER_SELF_SIGNED_NO_PWD ≠ ErrCode.ER_SELF_SIGNED := by
  refine ⟨?_, by decide⟩
  have hlen : 0 < vh.length := List.length_pos.mpr hvne
  rcases hsec with h | h | h <;>
    simp [handshakeResult, hpeek, hread, hcert, hself, hrem, hbuf, hlen, h]

/-- Witness for C8: packet `[0x00, 0, 0, 0x0002, warn, len 3, 0x01 'a' 'b']`
with a plugin that does not permit hash emission. -/
theorem c8_self_signed_no_pwd_witness :
    handshakeResult false [12] (fun _ => [0xab])
        ⟨[0, 0, 0, 2, 0, 0, 0, 3, 1, 97, 98], 0⟩ ⟨some [9], none⟩
        ⟨none, true, true, [], [], 0⟩ =
      { info := ⟨some 2, true, true, [], [], 0⟩, pluginDetached := true,
        pluginEnded := false,
        outcome := .thrown
          { msg := selfSignedNoPwdMsg, fatal := true,
            sqlState := strBytes "08000", errno := .ER_SELF_SIGNED_NO_PWD } } ∧
    ErrCode.ER_SELF_SIGNED_NO_PWD ≠ ErrCode.ER_SELF_SIGNED :=
  c8_self_signed_no_pwd false [12] (fun _ => [0xab])
    ⟨[0, 0, 0, 2, 0, 0, 0, 3, 1, 97, 98], 0⟩ ⟨some [9], none⟩
    ⟨none, true, true, [], [], 0⟩ 2 ⟨[0, 0, 0, 2, 0, 0, 0, 3, 1, 97, 98], 5⟩
    [1, 97, 98] ⟨[0, 0, 0, 2, 0, 0, 0, 3, 1, 97, 98], 11⟩
    rfl (by decide) rfl rfl (by decide) (by decide) (by decide) (Or.inl rfl)

/-- C9: on an OK packet in the self-signed special case, if no bytes remain
after the status field and the warning count, or the length-encoded
validation hash buffer is empty, the handshake fails fatally with
`ER_SELF_SIGNED` (SQLSTATE 08000); success needs a non-empty matching
hash. -/
theorem c9_self_signed_missing_hash (permitHash : Bool) (pluginHash : Bytes)
    (sha256h : Bytes → Bytes) (packet : Packet) (opts : Opts) (info : Info)
    (st : Nat) (p2 : Packet)
    (hpeek : packet.peek = some 0x00)
    (hread : (((packet.skip 1).skipLengthCodedNumber).skipLengthCodedNumber).readUInt16
      = some (st, p2))
    (hcert : info.requireValidCert = true)
    (hself : info.selfSignedCertificate = true)
    (hmiss : (p2.skip 2).remaining = 0 ∨
      ∃ p3, (p2.skip 2).readBufferLengthEncoded = some (some [], p3)) :
    handshakeResult permitHash pluginHash sha256h packet opts info =
      { info := { info with status := some st }, pluginDetached := true,
        pluginEnded := false,
        outcome := .thrown
          { msg := strBytes "self-signed certificate", fatal := true,
            sqlState := strBytes "08000", errno := .ER_SELF_SIGNED } } := by
  rcases hmiss with h | ⟨p3, h⟩
  · simp [handshakeResult, selfSignedErrResult, hpeek, hread, hcert, hself, h]
  · by_cases hr : (p2.skip 2).remaining = 0
    · simp [handshakeResult, selfSignedErrResult, hpeek, hread, hcert, hself, hr]
    · simp [handshakeResult, selfSignedErrResult, hpeek, hread, hcert, hself, hr, h]

/-- Witness for C9: OK packet ending right after the warning count. -/
theorem c9_self_signed_missing_hash_witness :
    handshakeResult true [] (fun _ => []) ⟨[0, 0, 0, 2, 0, 0, 0], 0⟩ ⟨some [9], none⟩
        ⟨none, true, true, [], [], 0⟩ =
      { info := ⟨some 2, true, true, [], [], 0⟩, pluginDetached := true,
        pluginEnded := false,
        outcome := .thrown
          { msg := strBytes "self-signed certificate", fatal := true,
            sqlState := strBytes "08000", errno := .ER_SELF_SIGNED } } :=
  c9_self_signed_missing_hash true [] (fun _ => []) ⟨[0, 0, 0, 2, 0, 0, 0], 0⟩
    ⟨some [9], none⟩ ⟨none, true, true, [], [], 0⟩ 2 ⟨[0, 0, 0, 2, 0, 0, 0], 5⟩
    rfl (by decide) rfl rfl (Or.inl rfl)

/-- C10: when plugin-auth is not negotiated, `parseAuthSwitch` reads the
null-terminated mechanism name without skipping the 0xFE marker, so the
parsed name begins with the 0xFE byte; the remainder is the challenge. -/
theorem c10_no_plugin_auth_header (packet : Packet) (info : Info) (name : Bytes) (p2 : Packet)
    (hcap : info.clientCapabilities &&& PLUGIN_AUTH = 0)
    (hpeek : packet.peek = some 0xfe)
    (hstr : packet.readStringNullEnded = some (name, p2)) :
    parseAuthSwitch packet info = some (name, (p2.readBufferRemaining).1) ∧
      name.get? 0 = some 0xfe := by
  constructor
  · simp [parseAuthSwitch, hcap, hstr]
  · unfold Packet.readStringNullEnded at hstr
    unfold Packet.peek at hpeek
    have hdrop : (packet.bytes.drop packet.pos).get? 0 = some 0xfe := by
      rw [List.get?_eq_getElem?, List.getElem?_drop]
      simpa using hpeek
    match hh : takeUntilZero (packet.bytes.drop packet.pos) with
    | some (s, n) =>
      rw [hh] at hstr
      simp only [Option.some.injEq, Prod.mk.injEq] at hstr
      rw [← hstr.1]
      exact takeUntilZero_head _ s n 0xfe (by decide) hdrop hh
    | none => rw [hh] at hstr; simp at hstr

/-- Witness for C10: packet `[0xfe, 0x00, 7]` without the plugin-auth
capability — the parsed name is the single byte 0xFE. -/
theorem c10_no_plugin_auth_header_witness :
    parseAuthSwitch ⟨[0xfe, 0, 7], 0⟩ ⟨none, false, false, [], [], 0⟩ =
      some ([0xfe], ((⟨[0xfe, 0, 7], 2⟩ : Packet).readBufferRemaining).1) ∧
      ([0xfe] : Bytes).get? 0 = some 0xfe :=
  c10_no_plugin_auth_header ⟨[0xfe, 0, 7], 0⟩ ⟨none, false, false, [], [], 0⟩ [0xfe]
    ⟨[0xfe, 0, 7], 2⟩ rfl rfl (by decide)
